import Mathlib

/-!
Verification of the SirtepAPI core against its specification.

This file shallowly embeds the parts of the repository the claims refer to:

* `SirtepService.calculate_provision` (src/app/sirtep/sirtep_service.py),
* `MatrixBuilder.calculate_availability_matrix` / `filter_matrix` /
  `build_distance_matrix` (src/app/sirtep/modules/matrix_builder.py),
* `TaskService` (src/app/common/tasks/task_service.py) and the task entities,
* `SirtepStorage.retrieve_cached_file` (src/app/common/storage/sirtep_storage.py),
* `StorageService.get_storage_irrelevant_cache` / `delete_irrelevant_cache`
  (src/app/common/storage/storage_service.py),
* the poll read path `SirtepService.get_provision_for_request`.

Machine floats of the Python program are modelled by rationals; pandas
DataFrames by lists of rows plus explicit index lists; exceptions by
`Option`/`Except`.
-/

/-- Python `int()` applied to a finite rational: truncation toward zero. -/
def pyInt (q : ℚ) : ℤ := if q < 0 then -(⌊-q⌋) else ⌊q⌋

/-- Python `round` of a rational to the nearest integer, ties to even
(banker's rounding, the behaviour of `round` on Python floats). -/
def roundHalfEven (q : ℚ) : ℤ :=
  let f := ⌊q⌋
  let r := q - f
  if r < 1/2 then f
  else if 1/2 < r then f + 1
  else if f % 2 = 0 then f else f + 1

/-- Python `round(x, 2)`: round to two decimal places, ties to even. -/
def pyRound2 (q : ℚ) : ℚ := (roundHalfEven (q * 100) : ℚ) / 100

/-! ## ProvisionEngine: `SirtepService.calculate_provision`

A building row of the `buildings` GeoDataFrame: index (`physical_object_id`)
and the `population` column.  A service row of the `services` GeoDataFrame:
index (`service_id`), `service_type_id` and normalized `capacity`. -/

structure Building where
  id : ℕ
  population : ℚ
deriving DecidableEq

structure Service where
  id : ℕ
  service_type_id : ℕ
  capacity : ℚ
deriving DecidableEq

/-- The binary access matrix argument of `calculate_provision`: a DataFrame
with a row index, a column index, and a numeric entry for each position. -/
structure AccessMatrix where
  rows : List ℕ
  cols : List ℕ
  entry : ℕ → ℕ → ℚ

/-- `b_df[b_df["period"] <= period]["id"].to_list()`: ids whose built period
is set (the `dropna`) and `≤ period`. -/
def built_ids (periods : List (ℕ × Option ℕ)) (p : ℕ) : List ℕ :=
  (periods.filter (fun x => match x.2 with
    | some q => decide (q ≤ p)
    | none => false)).map (·.1)

/-- One `(period, service_type_id)` cell of the `calculate_provision` loop
body.  `none` models the Python exception raised by
`int(round(capacity / demand * 100, 2))` when `demand` sums to `0.0`
(`capacity/demand` is `inf` or `nan` and `int` raises). -/
def provision_cell (buildings : List Building) (services : List Service)
    (m : AccessMatrix) (b_per s_per : List (ℕ × Option ℕ)) (p t : ℕ) :
    Option ℤ :=
  let bIds := built_ids b_per p
  let sIds := built_ids s_per p
  let periodRows := m.rows.filter (fun b => b ∈ bIds)
  let periodCols := m.cols.filter (fun s => s ∈ sIds)
  let periodBuildings := buildings.filter (fun b => b.id ∈ bIds)
  let periodServices := services.filter (fun s => s.id ∈ sIds)
  if t ∉ periodServices.map (·.service_type_id) then some 0
  else
    let currentTypeServices := periodServices.filter (fun s => s.service_type_id = t)
    let availRows0 := (periodBuildings.map (·.id)).filter (fun b => b ∈ periodRows)
    let availCols0 := (currentTypeServices.map (·.id)).filter (fun s => s ∈ periodCols)
    let availRows := availRows0.filter (fun b => availCols0.any (fun s => decide (0 < m.entry b s)))
    let availCols := availCols0.filter (fun s => availRows0.any (fun b => decide (0 < m.entry b s)))
    if availRows.isEmpty then some 0
    else
      let demand := ((periodBuildings.filter (fun b => b.id ∈ availRows)).map (·.population)).sum
      let capacity := ((currentTypeServices.filter (fun s => s.id ∈ availCols)).map (·.capacity)).sum
      if demand = 0 then none
      else some (pyInt (pyRound2 (capacity / demand * 100)))

/-- Observable side effects of `calculate_provision` on the task service and
the storage service, in program order. -/
inductive TaskEvent where
  | setStatus (s : String)
  | setProgress (v : ℤ)
  | storeDf
deriving DecidableEq

/-- The inner double loop of `calculate_provision` over `(period, type)` pairs
in program order.  Returns the emitted progress events and whether the loop
ran to completion (`false` when a cell raised, which aborts the background
task before `processed += 1`). -/
def run_pairs (buildings : List Building) (services : List Service)
    (m : AccessMatrix) (b_per s_per : List (ℕ × Option ℕ)) (total : ℕ) :
    List (ℕ × ℕ) → ℕ → List TaskEvent × Bool
  | [], _ => ([], true)
  | (p, t) :: rest, processed =>
    match provision_cell buildings services m b_per s_per p t with
    | none => ([], false)
    | some _ =>
      let ev := TaskEvent.setProgress
        (roundHalfEven ((((processed + 1 : ℕ) : ℚ) / (total : ℚ)) * 100))
      let r := run_pairs buildings services m b_per s_per total rest (processed + 1)
      (ev :: r.1, r.2)

/-- The event trace of `SirtepService.calculate_provision`:
`set_task_status(task_id, "pending")`, then one
`set_task_progress(task_id, round(processed / total_to_process * 100))`
per processed `(period, service_type)` cell where
`total_to_process = len(buildings_built_periods) * len(service_types)`,
then — if no cell raised — `store_df(result_df, "provision", *args)`
followed by `set_task_status(task_id, "complete d")`
(the literal status string in the source). -/
def calculate_provision (buildings : List Building) (services : List Service)
    (m : AccessMatrix) (b_per s_per : List (ℕ × Option ℕ))
    (num_periods : ℕ) (service_types : List ℕ) : List TaskEvent :=
  let pairs := (List.range num_periods).flatMap (fun p => service_types.map (fun t => (p, t)))
  let total := b_per.length * service_types.length
  let r := run_pairs buildings services m b_per s_per total pairs 0
  TaskEvent.setStatus "pending" ::
    (r.1 ++ (if r.2 then [TaskEvent.storeDf, TaskEvent.setStatus "complete d"] else []))

/-- The progress values reported over a run, in order. -/
def progress_values (evs : List TaskEvent) : List ℤ :=
  evs.filterMap (fun e => match e with
    | TaskEvent.setProgress v => some v
    | _ => none)

/-! ## MatrixBuilder: `calculate_availability_matrix`, `filter_matrix`,
`build_distance_matrix`

A service row as seen by the matrix builder: index (`service_id`),
`service_type_id` and the `radius_availability_meters` column.  The planar
distances between building and service centroids are taken as an input
function, since the claims quantify over "the planar distance d". -/

structure MService where
  id : ℕ
  service_type_id : ℕ
  radius_availability_meters : ℚ
deriving DecidableEq

/-- `services["radius_availability_meters"].max()`, the bound of the spatial
query in `build_distance_matrix`. -/
def max_radius (services : List MService) : ℚ :=
  match services.map (·.radius_availability_meters) with
  | [] => 0
  | x :: xs => xs.foldl max x

/-- One entry of the sparse distance matrix after
`calculate_availability_matrix`: `KDTree.sparse_distance_matrix` leaves as
(implicit) zero any distance greater than `max_distance`, `to_dense` turns
those into `0.0`, and `matrix.replace(0.0, np.nan)` then maps every `0.0`
entry — both true zero distances and unrecorded pairs — to `NaN` (`none`). -/
def calculate_availability_matrix (dist : ℕ → ℕ → ℚ) (max_distance : ℚ)
    (b s : ℕ) : Option ℚ :=
  if dist b s = 0 ∨ max_distance < dist b s then none else some (dist b s)

/-- `current_services_df["radius_availability_meters"].iloc[0]`: the radius of
the first listed service of the given type. -/
def type_radius (services : List MService) (t : ℕ) : ℚ :=
  (((services.filter (fun s => s.service_type_id = t)).map
      (·.radius_availability_meters)).headD 0)

/-- One entry of `MatrixBuilder.filter_matrix` for a service column `s`:
`np.where(access_matrix[cols] > radius, 0, 1)`.  An `NaN` entry (`none`)
compares false under `>`, so `np.where` sends it to `1`. -/
def filter_matrix (services : List MService) (avail : ℕ → ℕ → Option ℚ)
    (b : ℕ) (s : MService) : ℚ :=
  match avail b s.id with
  | none => 1
  | some v => if type_radius services s.service_type_id < v then 0 else 1

/-- One entry of `MatrixBuilder.build_distance_matrix` for building row `b`
and service column `s`. -/
def build_distance_matrix (dist : ℕ → ℕ → ℚ) (services : List MService)
    (b : ℕ) (s : MService) : ℚ :=
  filter_matrix services (calculate_availability_matrix dist (max_radius services)) b s

/-! ## TaskTracker: `TaskService` and the task entities -/

/-- `ProvisionTask` (src/app/common/tasks/entities/provision_task.py):
`task_id`, `status` and `task_progress` (the `start_time` and `details`
fields play no role in the claims). -/
structure ProvisionTask where
  task_id : String
  status : String
  task_progress : ℚ
deriving DecidableEq

/-- The `TaskService.tasks` dictionary. -/
abbrev TaskDict := List (String × ProvisionTask)

/-- `TaskService.create_task("tep", *args)`: joins the arguments into the
task id and stores a fresh task with status `"in_queue"` and progress `0.0`
(overwriting any task already stored under that id, as a dict assignment
does). -/
def create_task (tasks : TaskDict) (args : List String) : TaskDict × String :=
  let id := String.intercalate "_" args
  let t : ProvisionTask := ⟨id, "in_queue", 0⟩
  if (tasks.lookup id).isSome then
    (tasks.map (fun p => if p.1 = id then (p.1, t) else p), id)
  else (tasks ++ [(id, t)], id)

/-- `TaskService.set_task_status`: the `check_task` decorator raises
`KeyError` when the id is unknown; otherwise `__set_task_attribute__` stores
the given status unconditionally (the `status` attribute always exists). -/
def set_task_status (tasks : TaskDict) (task_id status : String) :
    Except String TaskDict :=
  if (tasks.lookup task_id).isSome then
    Except.ok (tasks.map (fun p =>
      if p.1 = task_id then (p.1, { p.2 with status := status }) else p))
  else Except.error "KeyError"

/-- `TaskService.set_task_progress`: `KeyError` when the id is unknown;
otherwise the given progress value is stored unconditionally. -/
def set_task_progress (tasks : TaskDict) (task_id : String) (progress : ℚ) :
    Except String TaskDict :=
  if (tasks.lookup task_id).isSome then
    Except.ok (tasks.map (fun p =>
      if p.1 = task_id then (p.1, { p.2 with task_progress := progress }) else p))
  else Except.error "KeyError"

/-- `TaskService.get_task`: raises `KeyError` when the id is unknown (it does
not return `None`). -/
def get_task (tasks : TaskDict) (task_id : String) : Except String ProvisionTask :=
  match tasks.lookup task_id with
  | some t => Except.ok t
  | none => Except.error "KeyError"

/-! ## CacheStore: `SirtepStorage.retrieve_cached_file` and the read/write
paths built on it

A stored cache file is modelled structurally.  Its name on disk is
`"{date}_{kind}_{arg1}_..._{argN}{ext}"` (`CacheableDF.to_file` /
`CacheablePydantic.to_file` join `[date, name, *args]` with the separator
`"_"`).  Modelled from the spec: the `date` prefix is produced by the
`save` method of the external `idustorage.Storage` base class, which is not
part of this repository; per the spec the entry names are "a deterministic
composition of request parameters and a version suffix, sortable
lexicographically so the most recent version can be found by descending
order", so `date` is modelled as a timestamp formatted with the sortable
pattern `"%Y-%m-%d-%H-%M-%S"` — the format `retrieve_cached_file` parses
back.  Here `date` is kept as the encoded timestamp (seconds), `kind` is the
file-kind pattern (`"response"`, `"matrix"`, `"provision"`) and `args` are
the remaining separator-joined tokens (request parameters, then the version
suffix).  With that naming, descending name order is descending `date`
order (ties among equal timestamps are not further modelled). -/

structure CacheEntry (α : Type) where
  date : ℤ
  kind : String
  args : List String
  payload : α
deriving DecidableEq

/-- The glob `f"*{pattern}{''.join([f'_{arg}' for arg in args])}*{ext}"`:
the name matches when its kind equals the pattern and the requested
arguments are an initial segment of its stored arguments (the trailing `*`
absorbs any further tokens, such as the version suffix). -/
def glob_match {α : Type} (kind : String) (args : List String)
    (e : CacheEntry α) : Bool :=
  e.kind = kind && args.isPrefixOf e.args

/-- `SirtepStorage.retrieve_cached_file`: glob-match, sort the names in
descending order, and return the first file whose age in whole hours
(`(now - date).total_seconds() // 3600`) is below the configured
`actuality`; the empty result (a miss) is `none`. -/
def retrieve_cached_file {α : Type} (now actuality : ℤ)
    (store : List (CacheEntry α)) (kind : String) (args : List String) :
    Option (CacheEntry α) :=
  let files := store.filter (glob_match kind args)
  let sorted := files.insertionSort (fun e1 e2 => e2.date ≤ e1.date)
  sorted.find? (fun e => decide (Int.fdiv (now - e.date) 3600 < actuality))

/-- `Storage.save` via `Cacheable.to_file`: a new entry named with the
current timestamp is appended; nothing is overwritten in place. -/
def save {α : Type} (store : List (CacheEntry α)) (now : ℤ) (kind : String)
    (args : List String) (payload : α) : List (CacheEntry α) :=
  store ++ [⟨now, kind, args, payload⟩]

/-- `StorageService.read_response` (and `read_df`): retrieve the current
file name and load its payload. -/
def read_response {α : Type} (now actuality : ℤ) (store : List (CacheEntry α))
    (kind : String) (args : List String) : Option α :=
  (retrieve_cached_file now actuality store kind args).map (·.payload)

/-- The version-checked read of `SirtepService.calculate_schedule`
(src/app/sirtep/sirtep_service.py lines 243-251): look up the current cache
name for the request parameters, compare its trailing token
(`cache_name.split(".")[0].split("_")[-1]`) with the requested version, and
only on exact equality load and return the payload; otherwise the read is a
miss and the optimization is recomputed. -/
def read_if_current {α : Type} (now actuality : ℤ) (store : List (CacheEntry α))
    (kind : String) (args : List String) (version : String) : Option α :=
  match retrieve_cached_file now actuality store kind args with
  | some e =>
    if e.args.getLast? = some version then read_response now actuality store kind args
    else none
  | none => none

/-! ## The poll read path: `SirtepService.get_provision_for_request` -/

/-- The two success shapes of the poll path: `ProvisionSchema` (the cached
table) or `ProvisionInProgressSchema` (task status and progress). -/
inductive PollOutcome (α : Type) where
  | result (table : α)
  | inProgress (status : String) (progress : ℚ)
deriving DecidableEq

/-- The failure shapes of the poll path.  `staleOptimization` and
`neverStarted` are the two `http_exception(400, ...)` raises,
`corruptedCache` the `http_exception(500, ...)`; `taskKeyError` is the
`KeyError` that `TaskService.get_task` raises for an unknown id, and
`unexpectedStatus` the `KeyError` raised for a status outside
`{"pending", "in_queue", "error"}`. -/
inductive PollError where
  | staleOptimization
  | corruptedCache
  | neverStarted
  | taskKeyError
  | unexpectedStatus
deriving DecidableEq

/-- `SirtepService.get_provision_for_request`: if a current response cache
name exists, compare its version suffix with the scenario's actual update
stamp (mismatch → HTTP 400 "stale"), then read the provision table (missing
→ HTTP 500 "corrupted"); with no cached response, `task_service.get_task`
is called, which raises `KeyError` for an unknown id — the final
`http_exception(400, "... не была запущена ...")` that would report "never
started" is therefore unreachable. -/
def get_provision_for_request {α β : Type} (now actuality : ℤ)
    (response_store : List (CacheEntry β)) (provision_store : List (CacheEntry α))
    (tasks : TaskDict) (cache_args : List String) (actual_version : String) :
    Except PollError (PollOutcome α) :=
  let task_id := String.intercalate "_" cache_args
  match retrieve_cached_file now actuality response_store "response" cache_args with
  | some e =>
    if e.args.getLast? ≠ some actual_version then Except.error PollError.staleOptimization
    else
      match read_response now actuality provision_store "provision" cache_args with
      | some table => Except.ok (PollOutcome.result table)
      | none => Except.error PollError.corruptedCache
  | none =>
    match get_task tasks task_id with
    | Except.ok t =>
      if t.status = "pending" then Except.ok (PollOutcome.inProgress t.status t.task_progress)
      else if t.status = "in_queue" then Except.ok (PollOutcome.inProgress t.status t.task_progress)
      else if t.status = "error" then Except.ok (PollOutcome.inProgress t.status t.task_progress)
      else Except.error PollError.unexpectedStatus
    | Except.error _ => Except.error PollError.taskKeyError

/-! ## Cache sweep: `StorageService.get_storage_irrelevant_cache` and
`delete_irrelevant_cache`

The sweep works on the literal file names, so this part is embedded at the
level of character lists.  `split_on_char` is Python's `str.split(sep)` for
a one-character separator. -/

def split_on_char (sep : Char) (cs : List Char) : List (List Char) :=
  cs.foldr (fun c acc =>
    match acc with
    | [] => [[c]]
    | a :: as => if c = sep then [] :: a :: as else (c :: a) :: as) [[]]

/-- `datetime.strptime(tok, fmt)` succeeds only when the token has the
literal shape of the format; `'d'` in the template stands for one decimal
digit, any other template character must occur verbatim. -/
def matches_shape : List Char → List Char → Bool
  | [], [] => true
  | 'd' :: ts, c :: cs => c.isDigit && matches_shape ts cs
  | t :: ts, c :: cs => decide (c = t) && matches_shape ts cs
  | _, _ => false

/-- Decimal digits to a natural number. -/
def parse_nat (cs : List Char) : ℕ :=
  cs.foldl (fun a c => a * 10 + (c.toNat - ('0').toNat)) 0

/-- Days from 1970-01-01 of a proleptic-Gregorian civil date (the arithmetic
behind `datetime` subtraction). -/
def days_from_civil (y m d : ℤ) : ℤ :=
  let y2 := if m ≤ 2 then y - 1 else y
  let era := Int.fdiv y2 400
  let yoe := y2 - era * 400
  let mp := Int.emod (m + 9) 12
  let doy := Int.fdiv (153 * mp + 2) 5 + d - 1
  let doe := yoe * 365 + Int.fdiv yoe 4 - Int.fdiv yoe 100 + doy
  era * 146097 + doe - 719468

/-- A civil timestamp as seconds since the epoch. -/
def to_seconds (y mo d h mi s : ℤ) : ℤ :=
  days_from_civil y mo d * 86400 + h * 3600 + mi * 60 + s

/-- `datetime.strptime(tok, "%Y-%m-%d %H:%M:%S")`, the parse in
`get_storage_irrelevant_cache`: `none` models the `ValueError` it raises
when the token does not have that shape.  (Out-of-range digit groups such as
a 13th month are accepted here; only the raising direction matters below.) -/
def strptime_space (cs : List Char) : Option ℤ :=
  if matches_shape ("dddd-dd-dd dd:dd:dd".data) cs then
    some (to_seconds (parse_nat (cs.take 4)) (parse_nat ((cs.drop 5).take 2))
      (parse_nat ((cs.drop 8).take 2)) (parse_nat ((cs.drop 11).take 2))
      (parse_nat ((cs.drop 14).take 2)) (parse_nat ((cs.drop 17).take 2)))
  else none

/-- Zero-padded duo of decimal digits. -/
def two_digits (n : ℕ) : List Char :=
  if n < 10 then '0' :: (Nat.toDigits 10 n) else Nat.toDigits 10 n

/-- Modelled from the spec: the creation timestamp that the external
`idustorage.Storage.save` puts in front of the file name, formatted with the
sortable pattern `"%Y-%m-%d-%H-%M-%S"` (the pattern that the in-repo reader
`SirtepStorage.retrieve_cached_file` parses back, and the same pattern the
service uses for the version suffix). -/
def save_date_str (y mo d h mi s : ℕ) : List Char :=
  (Nat.toDigits 10 y) ++ ('-' :: two_digits mo) ++ ('-' :: two_digits d) ++
    ('-' :: two_digits h) ++ ('-' :: two_digits mi) ++ ('-' :: two_digits s)

/-- `CacheableDF.to_file` / `CacheablePydantic.to_file`: the stored name is
`separator.join([date, name, *args]) + ext` with separator `"_"`. -/
def to_file_name (date name : List Char) (args : List (List Char))
    (ext : List Char) : List Char :=
  (List.intercalate ('_' :: []) (date :: name :: args)) ++ ext

/-- `file_name.split(".")[0].split("_")[0]`, the token
`get_storage_irrelevant_cache` hands to `strptime`. -/
def first_name_token (f : List Char) : List Char :=
  ((split_on_char '_' ((split_on_char '.' f).headD [])).headD [])

/-- `StorageService.get_storage_irrelevant_cache`: select the files whose
parsed creation date is more than `CACHE_ACTUALITY` whole hours old
(strictly `>`); the `ValueError` of a failed `strptime` aborts the whole
list comprehension (`Except.error`). -/
def get_storage_irrelevant_cache (now cache_actuality : ℤ) :
    List (List Char) → Except String (List (List Char))
  | [] => Except.ok []
  | f :: fs =>
    match strptime_space (first_name_token f) with
    | none => Except.error "ValueError"
    | some t =>
      match get_storage_irrelevant_cache now cache_actuality fs with
      | Except.error e => Except.error e
      | Except.ok rest =>
        Except.ok (if cache_actuality < Int.fdiv (now - t) 3600 then f :: rest else rest)

/-! ## The worked example of the spec (§8)

3 buildings with populations [100, 50, 200] built at periods [0, 1, 1];
2 services of type 1 with capacities [30, 70] built at periods [0, 2];
all pairs accessible. -/

def exBuildings : List Building := [⟨0, 100⟩, ⟨1, 50⟩, ⟨2, 200⟩]

def exServices : List Service := [⟨10, 1, 30⟩, ⟨11, 1, 70⟩]

def exMatrix : AccessMatrix := ⟨[0, 1, 2], [10, 11], fun _ _ => 1⟩

def exBPer : List (ℕ × Option ℕ) := [(0, some 0), (1, some 1), (2, some 1)]

def exSPer : List (ℕ × Option ℕ) := [(10, some 0), (11, some 2)]

/-- C1 counterexample: on the spec's own example the cell values computed by
`calculate_provision` are `int(round(30/350*100, 2)) = 8` at period 1 and
`int(round(100/350*100, 2)) = 28` at period 2 — not the claimed
`round(30/350*100) = 9` and `round(100/350*100) = 29`. -/
theorem provision_example_truncates :
    provision_cell exBuildings exServices exMatrix exBPer exSPer 1 1 = some 8 ∧
    provision_cell exBuildings exServices exMatrix exBPer exSPer 2 1 = some 28 ∧
    provision_cell exBuildings exServices exMatrix exBPer exSPer 1 1 ≠ some 9 ∧
    provision_cell exBuildings exServices exMatrix exBPer exSPer 2 1 ≠ some 29 := by
  refine ⟨?_, ?_, ?_, ?_⟩ <;>
    norm_num [provision_cell, built_ids, pyInt, pyRound2, roundHalfEven,
      exBuildings, exServices, exMatrix, exBPer, exSPer]

/-- C5: a cell whose restricted matrix is non-empty (one building reaching
one built service of capacity 30) but whose summed population is 0 does not
yield a recorded value at all: `capacity / demand` is a float division by
zero (`inf`) and `int(round(inf, 2))` raises, aborting the background run
right after `set_task_status(task_id, "pending")` — no `0` is stored for
the cell and the result table is never cached. -/
theorem provision_cell_zero_demand_raises :
    provision_cell [⟨0, 0⟩] [⟨5, 1, 30⟩] ⟨[0], [5], fun _ _ => 1⟩
      [(0, some 0)] [(5, some 0)] 0 1 = none ∧
    calculate_provision [⟨0, 0⟩] [⟨5, 1, 30⟩] ⟨[0], [5], fun _ _ => 1⟩
      [(0, some 0)] [(5, some 0)] 1 [1] = [TaskEvent.setStatus "pending"] := by
  constructor <;>
    norm_num [provision_cell, built_ids, calculate_provision, run_pairs,
      List.range, pyInt, pyRound2, roundHalfEven]

/-- C4 counterexample: with 3 buildings, 2 periods and one service type, the
progress reported after the first period is `round(1/3 * 100) = 33` — the
denominator of `processed / total_to_process` is
`len(buildings_built_periods) * len(service_types)`, not
`num_periods * len(service_types)` — whereas the claimed formula gives
`1 / 2 * 100 = 50`; at the end of the run the reported progress is 67,
never 100. -/
theorem progress_uses_building_count :
    progress_values (calculate_provision exBuildings [⟨10, 1, 30⟩]
      ⟨[0, 1, 2], [10], fun _ _ => 1⟩ exBPer [(10, some 0)] 2 [1]) = [33, 67] ∧
    (33 : ℤ) ≠ 50 ∧ (67 : ℤ) ≠ 100 := by
  refine ⟨?_, by decide, by decide⟩
  norm_num [progress_values, calculate_provision, run_pairs, provision_cell,
    built_ids, pyInt, pyRound2, roundHalfEven, exBuildings, exBPer, List.range,
    List.filterMap_cons, List.filterMap_nil]

/-! ## Claims about the matrix builder -/

/-- Two service columns: service 10 of type 1 (normative radius 10 m) and
service 11 of type 2 (normative radius 5 m); the global query bound is the
largest radius, 10 m. -/
def exMSvs : List MService := [⟨10, 1, 10⟩, ⟨11, 2, 5⟩]

/-- Building 0 is 3 m from service 10 and 20 m from service 11. -/
def exDist : ℕ → ℕ → ℚ := fun _ s => if s = 10 then 3 else 20

/-- C2 counterexample: the pair (building 0, service 11) lies at distance
20 m, beyond the 10 m query bound, so its distance is missing from the
sparse matrix — and binarization turns the missing entry into `1`, although
20 m also exceeds the type's 5 m normative radius, for which the claim
requires `0`. -/
theorem filter_matrix_missing_entry_is_one :
    build_distance_matrix exDist exMSvs 0 ⟨11, 2, 5⟩ = 1 ∧
    exDist 0 11 = 20 ∧ type_radius exMSvs 2 = 5 ∧ max_radius exMSvs = 10 ∧
    ¬(exDist 0 11 ≤ type_radius exMSvs 2) := by
  refine ⟨by decide, by decide, by decide, by decide, by decide⟩

/-- C2 amended: a binarized entry is `1` iff the distance is missing from
the availability matrix (a true distance of `0`, or a distance beyond the
global query bound `max_radius`) or the distance is within the column
type's normative radius; it is `0` exactly when a recorded distance exceeds
that radius. -/
theorem build_distance_matrix_entry_cases (dist : ℕ → ℕ → ℚ)
    (services : List MService) (b : ℕ) (s : MService) :
    (build_distance_matrix dist services b s = 1 ↔
      (dist b s.id = 0 ∨ max_radius services < dist b s.id ∨
        dist b s.id ≤ type_radius services s.service_type_id))
    ∧ (build_distance_matrix dist services b s = 0 ↔
      (dist b s.id ≠ 0 ∧ dist b s.id ≤ max_radius services ∧
        type_radius services s.service_type_id < dist b s.id)) := by
  unfold build_distance_matrix filter_matrix calculate_availability_matrix
  by_cases h0 : dist b s.id = 0 ∨ max_radius services < dist b s.id
  · rw [if_pos h0]
    constructor
    · exact iff_of_true rfl (h0.elim Or.inl (fun h => Or.inr (Or.inl h)))
    · refine iff_of_false (by norm_num) ?_
      rintro ⟨hne, hle, -⟩
      exact h0.elim hne (fun h => absurd hle (not_le.mpr h))
  · rw [if_neg h0]
    push_neg at h0
    obtain ⟨hne, hle⟩ := h0
    have hmatch : (match some (dist b s.id) with
        | none => (1 : ℚ)
        | some v => if type_radius services s.service_type_id < v then 0 else 1) =
        (if type_radius services s.service_type_id < dist b s.id then (0 : ℚ) else 1) := rfl
    rw [hmatch]
    by_cases hr : type_radius services s.service_type_id < dist b s.id
    · rw [if_pos hr]
      constructor
      · refine iff_of_false (by norm_num) ?_
        rintro (h | h | h)
        · exact hne h
        · exact absurd hle (not_le.mpr h)
        · exact absurd h (not_le.mpr hr)
      · exact iff_of_true rfl ⟨hne, hle, hr⟩
    · rw [if_neg hr]
      constructor
      · exact iff_of_true rfl (Or.inr (Or.inr (not_lt.mp hr)))
      · exact iff_of_false (by norm_num) (fun h => hr h.2.2)

/-! ## Claims about the poll read path -/

/-- C3: polling a fingerprint for which nothing was ever started (no cached
response, no task) does not produce the "never started" HTTP 400 error:
`TaskService.get_task` raises `KeyError` first, and the raise propagates
out of `get_provision_for_request` unhandled — the final
`http_exception(400, ...)` is unreachable. -/
theorem poll_never_started_raises_keyerror :
    get_provision_for_request (α := Unit) (β := Unit) 0 12 [] [] []
      ["1", "2", "3", "4"] "2025-06-01-00-00-00" =
        Except.error PollError.taskKeyError ∧
    (Except.error PollError.taskKeyError :
        Except PollError (PollOutcome Unit)) ≠
      Except.error PollError.neverStarted := by
  refine ⟨rfl, fun h => ?_⟩
  injection h with h
  exact absurd h (by decide)

/-! ## Claims about the cache sweep -/

/-- C8: a provision cache file written by the system three months before the
sweep (far beyond any actuality window) is not selected for deletion:
`get_storage_irrelevant_cache` parses the leading name token
`"2025-06-01-00-00-00"` with the format `"%Y-%m-%d %H:%M:%S"`, which does
not match, so the sweep raises `ValueError` instead of returning the file,
and `delete_irrelevant_cache` deletes nothing. -/
theorem sweep_rejects_own_file_names :
    get_storage_irrelevant_cache (to_seconds 2025 9 1 0 0 0) 12
      [to_file_name (save_date_str 2025 6 1 0 0 0) ("provision".data)
        [("1".data), ("2".data), ("3".data), ("4".data),
          ("2025-05-31-00-00-00".data)] (".parquet".data)] =
      Except.error "ValueError" := rfl

/-! ## Claims about the task lifecycle -/

/-- `true` iff every status set before the first `store_df` call is the
non-terminal `"pending"`. -/
def nonterminal_before_store : List TaskEvent → Bool
  | [] => true
  | TaskEvent.storeDf :: _ => true
  | TaskEvent.setStatus s :: rest => (s == "pending") && nonterminal_before_store rest
  | TaskEvent.setProgress _ :: rest => nonterminal_before_store rest

lemma run_pairs_events_progress (buildings : List Building) (services : List Service)
    (m : AccessMatrix) (b_per s_per : List (ℕ × Option ℕ)) (total : ℕ) :
    ∀ (pairs : List (ℕ × ℕ)) (processed : ℕ),
      ∀ e ∈ (run_pairs buildings services m b_per s_per total pairs processed).1,
        ∃ v, e = TaskEvent.setProgress v := by
  intro pairs
  induction pairs with
  | nil => intro processed e he; simp [run_pairs] at he
  | cons pt rest ih =>
    intro processed e he
    obtain ⟨p, t⟩ := pt
    rw [run_pairs] at he
    split at he
    · simp at he
    · simp only [List.mem_cons] at he
      rcases he with he | he
      · exact ⟨_, he⟩
      · exact ih (processed + 1) e he

lemma nonterminal_before_store_append (evs : List TaskEvent)
    (h : ∀ e ∈ evs, ∃ v, e = TaskEvent.setProgress v) (l : List TaskEvent) :
    nonterminal_before_store (evs ++ l) = nonterminal_before_store l := by
  induction evs with
  | nil => simp
  | cons e rest ih =>
    obtain ⟨v, rfl⟩ := h e (by simp)
    simp only [List.cons_append, nonterminal_before_store]
    exact ih (fun e he => h e (by simp [he]))

/-- C9: over every run of `calculate_provision`, any status set before the
`store_df` cache write is the non-terminal `"pending"`; the success status
(the literal `"complete d"`) is set only in the step after `store_df`, so
the task reaches its terminal success value only after the provision table
has been written to the cache. -/
theorem provision_completed_only_after_store (buildings : List Building)
    (services : List Service) (m : AccessMatrix)
    (b_per s_per : List (ℕ × Option ℕ)) (num_periods : ℕ)
    (service_types : List ℕ) :
    nonterminal_before_store
      (calculate_provision buildings services m b_per s_per num_periods
        service_types) = true := by
  unfold calculate_provision
  simp only [nonterminal_before_store, beq_self_eq_true, Bool.true_and]
  rw [nonterminal_before_store_append _
    (run_pairs_events_progress buildings services m b_per s_per _ _ 0)]
  split
  · rfl
  · rfl

/-- C6 counterexample: a task whose status is the terminal
`TaskStatus.COMPLETED` value (the literal `"complited"`) can still be
mutated without error: `set_task_progress` stores `150` (beyond 100, no
clamping) and then `10` (a decrease), and `set_task_status` had freely
moved the task into the terminal status in the first place. -/
theorem terminal_task_mutation_succeeds :
    set_task_status [("1", ⟨"1", "in_queue", 0⟩)] "1" "complited" =
      Except.ok [("1", ⟨"1", "complited", 0⟩)] ∧
    set_task_progress [("1", ⟨"1", "complited", 0⟩)] "1" 150 =
      Except.ok [("1", ⟨"1", "complited", 150⟩)] ∧
    set_task_progress [("1", ⟨"1", "complited", 150⟩)] "1" 10 =
      Except.ok [("1", ⟨"1", "complited", 10⟩)] :=
  ⟨rfl, rfl, rfl⟩

lemma lookup_map_update (f : ProvisionTask → ProvisionTask) :
    ∀ (tasks : TaskDict) (id : String) (t : ProvisionTask),
      tasks.lookup id = some t →
      (tasks.map (fun p => if p.1 = id then (p.1, f p.2) else p)).lookup id =
        some (f t) := by
  intro tasks
  induction tasks with
  | nil => intro id t h; simp [List.lookup] at h
  | cons hd rest ih =>
    intro id t h
    obtain ⟨k, u⟩ := hd
    by_cases hke : k = id
    · subst hke
      simp only [List.lookup_cons, beq_self_eq_true] at h
      injection h with h
      subst h
      simp [List.lookup_cons]
    · have hbeq : (id == k) = false := beq_eq_false_iff_ne.mpr (fun he => hke he.symm)
      simp only [List.lookup_cons, hbeq] at h
      simp only [List.map_cons, if_neg hke, List.lookup_cons, hbeq]
      exact ih id t h

/-- C6 amended: `TaskService` enforces no task state machine.
`set_task_status` and `set_task_progress` fail only with `KeyError` for an
unknown task id; on any existing task — whatever its current status,
terminal included — they succeed and store the given value verbatim, with
no terminal-state guard, no monotonicity check and no clamping to
`[0, 100]`. -/
theorem task_mutation_unguarded (tasks : TaskDict) (task_id status : String)
    (v : ℚ) :
    (tasks.lookup task_id = none →
      set_task_status tasks task_id status = Except.error "KeyError" ∧
      set_task_progress tasks task_id v = Except.error "KeyError")
    ∧ (∀ t, tasks.lookup task_id = some t →
      set_task_status tasks task_id status =
        Except.ok (tasks.map (fun p =>
          if p.1 = task_id then (p.1, { p.2 with status := status }) else p)) ∧
      (tasks.map (fun p =>
          if p.1 = task_id then (p.1, { p.2 with status := status }) else p)).lookup
          task_id = some { t with status := status })
    ∧ (∀ t, tasks.lookup task_id = some t →
      set_task_progress tasks task_id v =
        Except.ok (tasks.map (fun p =>
          if p.1 = task_id then (p.1, { p.2 with task_progress := v }) else p)) ∧
      (tasks.map (fun p =>
          if p.1 = task_id then (p.1, { p.2 with task_progress := v }) else p)).lookup
          task_id = some { t with task_progress := v }) := by
  refine ⟨fun h => ?_, fun t h => ?_, fun t h => ?_⟩
  · constructor <;> simp [set_task_status, set_task_progress, h]
  · exact ⟨by simp [set_task_status, h],
      lookup_map_update (fun u => { u with status := status }) tasks task_id t h⟩
  · exact ⟨by simp [set_task_progress, h],
      lookup_map_update (fun u => { u with task_progress := v }) tasks task_id t h⟩

/-- Witness for C6's amended theorem: mutating the progress of a concrete
task in the terminal `"complited"` status succeeds and stores `150`. -/
theorem task_mutation_unguarded_witness :
    set_task_progress [("1", ⟨"1", "complited", 0⟩)] "1" 150 =
      Except.ok ([("1", (⟨"1", "complited", 0⟩ : ProvisionTask))].map (fun p =>
        if p.1 = "1" then (p.1, { p.2 with task_progress := 150 }) else p)) ∧
    ([("1", (⟨"1", "complited", 0⟩ : ProvisionTask))].map (fun p =>
        if p.1 = "1" then (p.1, { p.2 with task_progress := 150 }) else p)).lookup
        "1" = some ⟨"1", "complited", 150⟩ :=
  (task_mutation_unguarded [("1", ⟨"1", "complited", 0⟩)] "1" "s" 150).2.2
    ⟨"1", "complited", 0⟩ rfl

/-! ## Claims about the cache read/write paths -/

instance {α : Type} :
    IsTotal (CacheEntry α) (fun e1 e2 => e2.date ≤ e1.date) :=
  ⟨fun a b => le_total b.date a.date⟩

instance {α : Type} :
    IsTrans (CacheEntry α) (fun e1 e2 => e2.date ≤ e1.date) :=
  ⟨fun _ _ _ h1 h2 => le_trans h2 h1⟩

lemma retrieve_some_mem {α : Type} {now actuality : ℤ}
    {store : List (CacheEntry α)} {kind : String} {args : List String}
    {e : CacheEntry α}
    (h : retrieve_cached_file now actuality store kind args = some e) :
    e ∈ store ∧ glob_match kind args e = true ∧
      Int.fdiv (now - e.date) 3600 < actuality := by
  unfold retrieve_cached_file at h
  have hm := List.mem_of_find?_eq_some h
  have hp := List.find?_some h
  rw [(List.perm_insertionSort _ _).mem_iff, List.mem_filter] at hm
  exact ⟨hm.1, hm.2, of_decide_eq_true hp⟩

lemma find?_pairwise_max {β : Type} {r : β → β → Prop} {p : β → Bool} {e : β} :
    ∀ {l : List β}, l.Pairwise r → l.find? p = some e →
      ∀ x ∈ l, p x = true → r e x ∨ x = e := by
  intro l
  induction l with
  | nil => intro _ h; simp at h
  | cons a l ih =>
    intro hpw hf x hx hpx
    rw [List.find?_cons] at hf
    cases hpa : p a with
    | true =>
      rw [hpa] at hf
      injection hf with hf
      subst hf
      rcases List.mem_cons.mp hx with rfl | hx
      · exact Or.inr rfl
      · exact Or.inl (List.rel_of_pairwise_cons hpw hx)
    | false =>
      rw [hpa] at hf
      rcases List.mem_cons.mp hx with rfl | hx
      · exact absurd hpx (by simp [hpa])
      · exact ih hpw.of_cons hf x hx hpx

/-- C10: `retrieve_cached_file` reports a miss as soon as every matching
entry is at least `actuality` whole hours old, even if name and version
match the request exactly; and a returned entry is a matching, fresh entry
of maximal creation date among the fresh matching ones (most recent name
first). -/
theorem retrieve_respects_freshness {α : Type} (now actuality : ℤ)
    (store : List (CacheEntry α)) (kind : String) (args : List String) :
    ((∀ e ∈ store, glob_match kind args e = true →
        actuality ≤ Int.fdiv (now - e.date) 3600) →
      retrieve_cached_file now actuality store kind args = none)
    ∧ (∀ e, retrieve_cached_file now actuality store kind args = some e →
      e ∈ store ∧ glob_match kind args e = true ∧
        Int.fdiv (now - e.date) 3600 < actuality ∧
        ∀ e2 ∈ store, glob_match kind args e2 = true →
          Int.fdiv (now - e2.date) 3600 < actuality → e2.date ≤ e.date) := by
  constructor
  · intro hstale
    unfold retrieve_cached_file
    rw [List.find?_eq_none]
    intro x hx
    rw [(List.perm_insertionSort _ _).mem_iff, List.mem_filter] at hx
    simp only [decide_eq_true_eq, not_lt]
    exact hstale x hx.1 hx.2
  · intro e h
    obtain ⟨hmem, hglob, hfresh⟩ := retrieve_some_mem h
    refine ⟨hmem, hglob, hfresh, fun e2 he2 hg2 hf2 => ?_⟩
    unfold retrieve_cached_file at h
    have hsorted : List.Pairwise (fun e1 e2 : CacheEntry α => e2.date ≤ e1.date) _ :=
      List.sorted_insertionSort (fun e1 e2 : CacheEntry α => e2.date ≤ e1.date)
        ((store.filter (glob_match kind args)))
    have he2s : e2 ∈ (store.filter (glob_match kind args)).insertionSort
        (fun e1 e2 => e2.date ≤ e1.date) := by
      rw [(List.perm_insertionSort _ _).mem_iff, List.mem_filter]
      exact ⟨he2, hg2⟩
    rcases find?_pairwise_max hsorted h e2 he2s (decide_eq_true hf2) with hle | rfl
    · exact hle
    · exact le_refl _

/-- Witness for C10: a matching entry exactly two hours old with a one-hour
actuality window is a miss. -/
theorem retrieve_respects_freshness_witness :
    retrieve_cached_file (α := Unit) 7200 1 [⟨0, "response", ["1"], ()⟩]
      "response" ["1"] = none :=
  (retrieve_respects_freshness 7200 1 [⟨0, "response", ["1"], ()⟩]
    "response" ["1"]).1 (by decide)

/-- C7: writing a payload under a fingerprint with a version suffix and
reading it back through the version-checked read path with the same
fingerprint and version returns exactly the written payload (the fresh
write is the newest entry); and whenever every stored entry's version
suffix differs from the requested version, the read is a miss — a
non-matching version is never returned as current. -/
theorem cache_write_then_read {α : Type} (now actuality : ℤ)
    (store : List (CacheEntry α)) (args : List String) (version : String)
    (payload : α) (hact : 0 < actuality) (hnew : ∀ e ∈ store, e.date < now) :
    read_if_current now actuality
      (save store now "response" (args ++ [version]) payload) "response" args
      version = some payload
    ∧ ∀ (store2 : List (CacheEntry α)) (version2 : String),
      (∀ e ∈ store2, e.args.getLast? ≠ some version2) →
      read_if_current now actuality store2 "response" args version2 = none := by
  constructor
  · have hglob : glob_match "response" args
        (⟨now, "response", args ++ [version], payload⟩ : CacheEntry α) = true := by
      simp [glob_match, List.isPrefixOf_iff_prefix]
    have hretr : retrieve_cached_file now actuality
        (save store now "response" (args ++ [version]) payload) "response" args =
        some ⟨now, "response", args ++ [version], payload⟩ := by
      unfold retrieve_cached_file save
      set e0 : CacheEntry α := ⟨now, "response", args ++ [version], payload⟩ with he0
      have he0mem : e0 ∈ ((store ++ [e0]).filter
          (glob_match "response" args)).insertionSort
          (fun e1 e2 => e2.date ≤ e1.date) := by
        rw [(List.perm_insertionSort _ _).mem_iff, List.mem_filter]
        exact ⟨by simp, hglob⟩
      have hsorted : List.Pairwise (fun e1 e2 : CacheEntry α => e2.date ≤ e1.date) _ :=
        List.sorted_insertionSort (fun e1 e2 : CacheEntry α => e2.date ≤ e1.date)
          (((store ++ [e0]).filter (glob_match "response" args)))
      rcases hsort : ((store ++ [e0]).filter
          (glob_match "response" args)).insertionSort
          (fun e1 e2 => e2.date ≤ e1.date) with _ | ⟨x, rest⟩
      · rw [hsort] at he0mem; exact absurd he0mem (List.not_mem_nil e0)
      · have hxe0 : x = e0 := by
          by_contra hne
          have hxmem : x ∈ store ++ [e0] := by
            have : x ∈ (store ++ [e0]).filter (glob_match "response" args) := by
              rw [← (List.perm_insertionSort
                (fun e1 e2 : CacheEntry α => e2.date ≤ e1.date) _).mem_iff, hsort]
              exact List.mem_cons_self x rest
            exact (List.mem_filter.mp this).1
          have hxstore : x ∈ store := by
            rcases List.mem_append.mp hxmem with hx | hx
            · exact hx
            · simp only [List.mem_singleton] at hx; exact absurd hx hne
          have hxd : x.date < now := hnew x hxstore
          have he0rest : e0 ∈ rest := by
            rw [hsort] at he0mem
            rcases List.mem_cons.mp he0mem with h | h
            · exact absurd h.symm hne
            · exact h
          rw [hsort] at hsorted
          have : e0.date ≤ x.date := List.rel_of_pairwise_cons hsorted he0rest
          exact absurd (lt_of_lt_of_le hxd this) (lt_irrefl _)
        subst hxe0
        simp only [hsort]
        rw [List.find?_cons_of_pos]
        simp only [he0, Int.sub_self, Int.zero_fdiv, decide_eq_true_eq]
        exact hact
    unfold read_if_current
    rw [hretr]
    have hlast : (args ++ [version]).getLast? = some version :=
      List.getLast?_concat args
    show (if (args ++ [version]).getLast? = some version then
        read_response now actuality
          (save store now "response" (args ++ [version]) payload) "response" args
      else none) = some payload
    rw [if_pos hlast]
    unfold read_response
    rw [hretr]
    rfl
  · intro store2 version2 hv
    unfold read_if_current
    rcases hr : retrieve_cached_file now actuality store2 "response" args with _ | e
    · rfl
    · show (if e.args.getLast? = some version2 then
          read_response now actuality store2 "response" args else none) = none
      rw [if_neg]
      exact hv e (retrieve_some_mem hr).1

/-- Witness for C7: a write into an empty store read back immediately. -/
theorem cache_write_then_read_witness :
    read_if_current (α := Unit) 0 1 (save [] 0 "response" (["1"] ++ ["v"]) ())
      "response" ["1"] "v" = some () :=
  (cache_write_then_read 0 1 [] ["1"] "v" () (by decide)
    (by intro e he; exact absurd he (List.not_mem_nil e))).1

/-! ## Spec-side formulation of the provision formula

These definitions restate the claim's quantities — "reachable built
services of type t" and "buildings with at least one reachable built
service of type t" — directly from the claim's words, to be compared with
`provision_cell` above. -/

/-- Spec-side: entity `i` has a built-period `≤ p` in the period map. -/
def spec_builtB (per : List (ℕ × Option ℕ)) (i p : ℕ) : Bool :=
  per.any (fun x => x.1 = i && decide (x.2.getD (p + 1) ≤ p))

/-- Spec-side: building id `bid` has at least one reachable built service
of type `t` at period `p` (an accessible pair: positive matrix entry within
the matrix index spaces). -/
def spec_served (services : List Service) (m : AccessMatrix)
    (s_per : List (ℕ × Option ℕ)) (p t bid : ℕ) : Bool :=
  services.any (fun s => s.service_type_id = t && spec_builtB s_per s.id p &&
    decide (s.id ∈ m.cols) && decide (0 < m.entry bid s.id))

/-- Spec-side: service id `sid` is reachable from at least one built
building at period `p`. -/
def spec_reaches (buildings : List Building) (m : AccessMatrix)
    (b_per : List (ℕ × Option ℕ)) (p sid : ℕ) : Bool :=
  buildings.any (fun b => spec_builtB b_per b.id p &&
    decide (b.id ∈ m.rows) && decide (0 < m.entry b.id sid))

/-- Spec-side: the buildings with at least one reachable built service of
type `t` at period `p`. -/
def spec_demand_buildings (buildings : List Building) (services : List Service)
    (m : AccessMatrix) (b_per s_per : List (ℕ × Option ℕ)) (p t : ℕ) :
    List Building :=
  buildings.filter (fun b => spec_builtB b_per b.id p &&
    decide (b.id ∈ m.rows) && spec_served services m s_per p t b.id)

/-- Spec-side: total population of buildings with at least one reachable
built service of type `t`. -/
def spec_demand (buildings : List Building) (services : List Service)
    (m : AccessMatrix) (b_per s_per : List (ℕ × Option ℕ)) (p t : ℕ) : ℚ :=
  ((spec_demand_buildings buildings services m b_per s_per p t).map
    (·.population)).sum

/-- Spec-side: the reachable built services of type `t` at period `p`. -/
def spec_capacity_services (buildings : List Building) (services : List Service)
    (m : AccessMatrix) (b_per s_per : List (ℕ × Option ℕ)) (p t : ℕ) :
    List Service :=
  services.filter (fun s => s.service_type_id = t && spec_builtB s_per s.id p &&
    decide (s.id ∈ m.cols) && spec_reaches buildings m b_per p s.id)

/-- Spec-side: total capacity of the reachable built services of type `t`. -/
def spec_capacity (buildings : List Building) (services : List Service)
    (m : AccessMatrix) (b_per s_per : List (ℕ × Option ℕ)) (p t : ℕ) : ℚ :=
  ((spec_capacity_services buildings services m b_per s_per p t).map
    (·.capacity)).sum

lemma mem_built_ids {per : List (ℕ × Option ℕ)} {i p : ℕ} :
    i ∈ built_ids per p ↔ spec_builtB per i p = true := by
  unfold built_ids spec_builtB
  rw [List.any_eq_true]
  constructor
  · intro h
    obtain ⟨x, hx, hxi⟩ := List.mem_map.mp h
    obtain ⟨hxm, hpred⟩ := List.mem_filter.mp hx
    refine ⟨x, hxm, ?_⟩
    rw [Bool.and_eq_true]
    refine ⟨decide_eq_true hxi, ?_⟩
    cases hq : x.2 with
    | none => rw [hq] at hpred; simp at hpred
    | some q => rw [hq] at hpred; exact hpred
  · rintro ⟨x, hxm, hcond⟩
    rw [Bool.and_eq_true] at hcond
    obtain ⟨h1, h2⟩ := hcond
    have hxi : x.1 = i := of_decide_eq_true h1
    refine List.mem_map.mpr ⟨x, List.mem_filter.mpr ⟨hxm, ?_⟩, hxi⟩
    cases hq : x.2 with
    | none =>
      rw [hq] at h2
      exact absurd (of_decide_eq_true h2) (Nat.not_succ_le_self p)
    | some q => rw [hq] at h2; exact h2

/-- `List.any` over a mapped list. -/
lemma any_map2 {α β : Type} (f : α → β) (l : List α) (p : β → Bool) :
    (l.map f).any p = l.any (fun a => p (f a)) := by
  induction l with
  | nil => rfl
  | cons a l ih => simp [List.any_cons, ih]

/-- Bool form of `mem_built_ids`. -/
lemma decide_mem_built_ids {per : List (ℕ × Option ℕ)} {i p : ℕ} :
    decide (i ∈ built_ids per p) = spec_builtB per i p := by
  rw [Bool.eq_iff_iff, decide_eq_true_eq]
  exact mem_built_ids

/-- C1 amended: a `calculate_provision` cell for `(p, t)` is `0` when no
listed service of type `t` has a built-period `≤ p`; otherwise, when some
building has a reachable built service of type `t`, the cell is the
Python `int(round(capacity / demand * 100, 2))` — the integer truncation
of the two-decimal rounding (8 and 28 on the spec's example, not the
claimed `round(...)` = 9 and 29); it is `0` again when no pair is
reachable, and the degenerate zero-demand case raises instead of storing a
value. -/
theorem provision_cell_formula (buildings : List Building)
    (services : List Service) (m : AccessMatrix)
    (b_per s_per : List (ℕ × Option ℕ)) (p t : ℕ) :
    provision_cell buildings services m b_per s_per p t =
      if ¬ ∃ s ∈ services, s.service_type_id = t ∧ spec_builtB s_per s.id p = true
      then some 0
      else if spec_demand_buildings buildings services m b_per s_per p t = []
      then some 0
      else if spec_demand buildings services m b_per s_per p t = 0 then none
      else some (pyInt (pyRound2
        (spec_capacity buildings services m b_per s_per p t /
          spec_demand buildings services m b_per s_per p t * 100))) := by
  have htype : (t ∈ (services.filter
      (fun s => decide (s.id ∈ built_ids s_per p))).map (fun s => s.service_type_id)) ↔
      ∃ s ∈ services, s.service_type_id = t ∧ spec_builtB s_per s.id p = true := by
    simp only [List.mem_map, List.mem_filter, decide_eq_true_eq, mem_built_ids]
    constructor
    · rintro ⟨s, ⟨hs, hb⟩, ht⟩; exact ⟨s, hs, ht, hb⟩
    · rintro ⟨s, hs, ht, hb⟩; exact ⟨s, ⟨hs, hb⟩, ht⟩
  simp only [provision_cell]
  by_cases h1 : ∃ s ∈ services, s.service_type_id = t ∧ spec_builtB s_per s.id p = true
  · rw [if_neg (not_not_intro (htype.mpr h1)), if_neg (not_not_intro h1)]
    have hcols0 : (((services.filter (fun s => decide (s.id ∈ built_ids s_per p))).filter
        (fun s => decide (s.service_type_id = t))).map (fun s => s.id)).filter
        (fun s => decide (s ∈ m.cols.filter (fun c => decide (c ∈ built_ids s_per p)))) =
        (services.filter (fun s =>
          decide (s.service_type_id = t) && spec_builtB s_per s.id p &&
            decide (s.id ∈ m.cols))).map (fun s => s.id) := by
      rw [List.filter_map, List.filter_filter, List.filter_filter]
      refine congrArg (List.map _) (List.filter_congr ?_)
      intro s hs
      rw [Bool.eq_iff_iff]
      simp only [Function.comp, Bool.and_eq_true, decide_eq_true_eq, List.mem_filter,
        mem_built_ids]
      constructor
      · rintro ⟨⟨⟨hc, hb⟩, ht⟩, hb2⟩; exact ⟨⟨ht, hb⟩, hc⟩
      · rintro ⟨⟨ht, hb⟩, hc⟩; exact ⟨⟨⟨hc, hb⟩, ht⟩, hb⟩
    have hrows0 : ((buildings.filter (fun b => decide (b.id ∈ built_ids b_per p))).map
        (fun b => b.id)).filter
        (fun b => decide (b ∈ m.rows.filter (fun r => decide (r ∈ built_ids b_per p)))) =
        (buildings.filter (fun b =>
          spec_builtB b_per b.id p && decide (b.id ∈ m.rows))).map (fun b => b.id) := by
      rw [List.filter_map, List.filter_filter]
      refine congrArg (List.map _) (List.filter_congr ?_)
      intro b hb
      rw [Bool.eq_iff_iff]
      simp only [Function.comp, Bool.and_eq_true, decide_eq_true_eq, List.mem_filter,
        mem_built_ids]
      constructor
      · rintro ⟨⟨hr, hb1⟩, hb2⟩; exact ⟨hb1, hr⟩
      · rintro ⟨hb1, hr⟩; exact ⟨⟨hr, hb1⟩, hb1⟩
    rw [hcols0, hrows0]
    simp only [any_map2, List.any_filter]
    have hrowsEq : List.filter
        (fun b => services.any fun a =>
          decide (a.service_type_id = t) && spec_builtB s_per a.id p &&
            decide (a.id ∈ m.cols) && decide (0 < m.entry b a.id))
        (List.map (fun b => b.id)
          (List.filter (fun b => spec_builtB b_per b.id p && decide (b.id ∈ m.rows))
            buildings)) =
        (spec_demand_buildings buildings services m b_per s_per p t).map
          (fun b => b.id) := by
      unfold spec_demand_buildings spec_served
      rw [List.filter_map, List.filter_filter]
      exact congrArg (List.map _) (List.filter_congr (fun b _ => Bool.and_comm _ _))
    have hcolsEq : List.filter
        (fun s => buildings.any fun a =>
          spec_builtB b_per a.id p && decide (a.id ∈ m.rows) &&
            decide (0 < m.entry a.id s))
        (List.map (fun s => s.id)
          (List.filter (fun s =>
            decide (s.service_type_id = t) && spec_builtB s_per s.id p &&
              decide (s.id ∈ m.cols)) services)) =
        (spec_capacity_services buildings services m b_per s_per p t).map
          (fun s => s.id) := by
      unfold spec_capacity_services spec_reaches
      rw [List.filter_map, List.filter_filter]
      exact congrArg (List.map _) (List.filter_congr (fun s _ => Bool.and_comm _ _))
    rw [hrowsEq, hcolsEq]
    have hdem : List.filter
        (fun b => decide (b.id ∈ List.map (fun b => b.id)
          (spec_demand_buildings buildings services m b_per s_per p t)))
        (List.filter (fun b => decide (b.id ∈ built_ids b_per p)) buildings) =
        spec_demand_buildings buildings services m b_per s_per p t := by
      unfold spec_demand_buildings
      rw [List.filter_filter]
      refine List.filter_congr ?_
      intro b hb
      rw [Bool.eq_iff_iff]
      simp only [Bool.and_eq_true, decide_eq_true_eq, List.mem_map, List.mem_filter,
        mem_built_ids]
      constructor
      · rintro ⟨⟨b2, ⟨hb2m, hb2p⟩, hid⟩, hA⟩
        rw [← hid]
        exact hb2p
      · intro hp
        exact ⟨⟨b, ⟨hb, hp⟩, rfl⟩, hp.1.1⟩
    have hcap : List.filter
        (fun s => decide (s.id ∈ List.map (fun s => s.id)
          (spec_capacity_services buildings services m b_per s_per p t)))
        (List.filter (fun s => decide (s.service_type_id = t))
          (List.filter (fun s => decide (s.id ∈ built_ids s_per p)) services)) =
        spec_capacity_services buildings services m b_per s_per p t := by
      unfold spec_capacity_services
      rw [List.filter_filter, List.filter_filter]
      refine List.filter_congr ?_
      intro s hs
      rw [Bool.eq_iff_iff]
      simp only [Bool.and_eq_true, decide_eq_true_eq, List.mem_map, List.mem_filter,
        mem_built_ids]
      constructor
      · rintro ⟨⟨⟨s2, ⟨hs2m, hs2p⟩, hid⟩, hT⟩, hb⟩
        exact ⟨⟨⟨hT, hb⟩, hid ▸ hs2p.1.2⟩, hid ▸ hs2p.2⟩
      · intro hp
        exact ⟨⟨⟨s, ⟨hs, hp⟩, rfl⟩, hp.1.1.1⟩, hp.1.1.2⟩
    rw [hdem, hcap]
    simp only [spec_demand, spec_capacity, List.isEmpty_iff, List.map_eq_nil_iff]
  · rw [if_pos (fun hm => h1 (htype.mp hm)), if_pos h1]
